import Mathlib

/-!
Verification of the magiclip scan cache and batch clip pipeline.

This file shallowly embeds the core of the program (src/sub.rs, src/main.rs,
src/ffmpeg.rs, src/util.rs) in Lean.  External collaborators (the filesystem,
the ffmpeg/ffprobe subprocesses, the srtlib parser, the fzf selector) are
modelled as explicit oracle inputs; machine integers (i64) are modelled as
Int with explicit range checks mirroring the checked arithmetic of the code.
-/

namespace Magiclip

/-- srtlib Timestamp: (hours, minutes, seconds, milliseconds) as u8/u8/u8/u16. -/
structure Timestamp where
  hours : Nat
  minutes : Nat
  seconds : Nat
  milliseconds : Nat
deriving DecidableEq

/-- srtlib Subtitle as re-exposed by the serde remote definition in sub.rs:
num, start_time, end_time, text. -/
structure Subtitle where
  num : Nat
  start_time : Timestamp
  end_time : Timestamp
  text : String
deriving DecidableEq

/-- Rust `SubPath` from sub.rs: provenance of a subtitle source. -/
inductive SubPath where
  | InternalFFmpeg (stream_id : Nat)
  | External (path : String)
deriving DecidableEq

/-- Rust `Metadata` from sub.rs.  `time` is the chrono `DateTime<Utc>` scan time,
modelled exactly as nanoseconds since the Unix epoch (chrono stores nanosecond
precision; the value itself is unbounded, range checks happen at use sites). -/
structure Metadata where
  video_path : String
  time : Int
deriving DecidableEq

/-- Rust `Entry` from sub.rs: scan metadata plus ordered subtitle sources with
their parsed cues. -/
structure Entry where
  meta : Metadata
  sub_files : List (SubPath × List Subtitle)
deriving DecidableEq

/-- Rust `Key` from sub.rs: identity of a cache entry. -/
structure Key where
  video_path : String
deriving DecidableEq

/-- Rust `EntryChanged` from sub.rs. -/
inductive EntryChanged where
  | Yes
  | No
  | Gone
deriving DecidableEq

/-- Rust `EntryFound` from sub.rs. -/
inductive EntryFound where
  | YesButGone
  | YesButChanged
  | Yes (val : Entry)
  | No
deriving DecidableEq

/-! ## i64 checked arithmetic (Rust `i64::checked_mul` / `checked_add`) -/

def i64Min : Int := -(2 ^ 63)

def i64Max : Int := 2 ^ 63 - 1

def fitsI64 (n : Int) : Bool := decide (i64Min ≤ n ∧ n ≤ i64Max)

def checkedMul (a b : Int) : Option Int :=
  if fitsI64 (a * b) then some (a * b) else none

def checkedAdd (a b : Int) : Option Int :=
  if fitsI64 (a + b) then some (a + b) else none

/-- chrono `DateTime::timestamp_nanos_opt`: the nanosecond timestamp when it
fits an i64, `none` otherwise. -/
def timestampNanosOpt (t : Int) : Option Int :=
  if fitsI64 t then some t else none

/-! ## Filesystem model -/

/-- The fields of `std::fs::Metadata` read by `Entry::has_changed`
(`MetadataExt`: ctime/mtime whole seconds plus nanosecond parts, all i64). -/
structure FsStat where
  ctime : Int
  ctime_nsec : Int
  mtime : Int
  mtime_nsec : Int
deriving DecidableEq

/-- The filesystem as seen through the calls the code makes:
`Path::exists`, `Path::is_file`, `Path::metadata` (the latter fallible). -/
structure Fs where
  pathExists : String → Bool
  isFile : String → Bool
  statOf : String → Except String FsStat

/-- The ctime side of `relevant_timestamp`:
`meta.ctime().checked_mul(10^9).and_then(|ts| ts.checked_add(meta.ctime_nsec()))`. -/
def ctimeNanos (m : FsStat) : Option Int :=
  (checkedMul m.ctime (10 ^ 9)).bind (fun ts => checkedAdd ts m.ctime_nsec)

/-- The mtime side of `relevant_timestamp`. -/
def mtimeNanos (m : FsStat) : Option Int :=
  (checkedMul m.mtime (10 ^ 9)).bind (fun ts => checkedAdd ts m.mtime_nsec)

/-- Function `relevant_timestamp` from `Entry::has_changed` (sub.rs): ctime or mtime in
nanoseconds, whichever is more recent; checked arithmetic failure and
non-positive values are errors (`ensure!(ctime > 0)`, `ensure!(mtime > 0)`). -/
def relevant_timestamp (m : FsStat) : Except String Int :=
  match ctimeNanos m with
  | none => .error "nanos not fitting in i64. either corruption or we have the year ~2540+"
  | some ctime =>
    match mtimeNanos m with
    | none => .error "nanos not fitting in i64. either corruption or we have the year ~2540+"
    | some mtime =>
      if ctime ≤ 0 then .error "ensure failed: ctime > 0"
      else if mtime ≤ 0 then .error "ensure failed: mtime > 0"
      else .ok (max ctime mtime)

/-- Method `Entry::has_changed` (sub.rs): `Gone` when the path does not exist or is
not a regular file; otherwise compare the relevant filesystem timestamp with
the recorded scan time in nanoseconds, `Yes` (stale) on `>=`. -/
def Entry.has_changed (fs : Fs) (e : Entry) : Except String EntryChanged :=
  if !(fs.pathExists e.meta.video_path) || !(fs.isFile e.meta.video_path) then
    .ok .Gone
  else
    match timestampNanosOpt e.meta.time with
    | none => .error "nsec timestamp not in u64 range. Either corrupt SubDB or more than 580 years have passed."
    | some db_scan_nanos =>
      match fs.statOf e.meta.video_path with
      | .error e => .error e
      | .ok meta =>
        match relevant_timestamp meta with
        | .error e => .error e
        | .ok fs_relevant_timestamp =>
          if db_scan_nanos ≤ fs_relevant_timestamp then .ok .Yes else .ok .No

/-! ## The in-memory map (Rust `HashMap<Key, Arc<Entry>>`)

Modelled as an association list with at most one binding per key; `dbGet`,
`dbInsert`, `dbRemove` mirror `HashMap::get` / `insert` / `remove`. -/

def InternalDB := List (Key × Entry)
deriving DecidableEq

def dbGet : InternalDB → Key → Option Entry
  | [], _ => none
  | (k, v) :: rest, key => if k = key then some v else dbGet rest key

def dbRemove (m : InternalDB) (key : Key) : InternalDB :=
  List.filter (fun p => !(p.1 = key : Bool)) m

def dbInsert (m : InternalDB) (key : Key) (v : Entry) : InternalDB :=
  (key, v) :: dbRemove m key

/-- Rust `SubDB` from sub.rs: the map plus the backing-file path. -/
structure SubDB where
  db : InternalDB
  db_path : String
deriving DecidableEq

/-! ## Wire format (serde) for the backing file

The serde remote definitions in sub.rs serialize an srtlib `Timestamp` via its
four getters and rebuild it with `Timestamp::new`; a `Subtitle` is serialized
field by field through the remote struct.  JSON encoding of the resulting tree
is the external serde_json boundary, taken as faithful. -/

structure WireTimestamp where
  hours : Nat
  minutes : Nat
  seconds : Nat
  milliseconds : Nat
deriving DecidableEq

structure WireSubtitle where
  num : Nat
  start_time : WireTimestamp
  end_time : WireTimestamp
  text : String
deriving DecidableEq

structure WireEntry where
  video_path : String
  time : Int
  sub_files : List (SubPath × List WireSubtitle)
deriving DecidableEq

def serTimestamp (t : Timestamp) : WireTimestamp :=
  ⟨t.hours, t.minutes, t.seconds, t.milliseconds⟩

def deserTimestamp (w : WireTimestamp) : Timestamp :=
  ⟨w.hours, w.minutes, w.seconds, w.milliseconds⟩

def serSubtitle (s : Subtitle) : WireSubtitle :=
  ⟨s.num, serTimestamp s.start_time, serTimestamp s.end_time, s.text⟩

def deserSubtitle (w : WireSubtitle) : Subtitle :=
  ⟨w.num, deserTimestamp w.start_time, deserTimestamp w.end_time, w.text⟩

def serEntry (e : Entry) : WireEntry :=
  ⟨e.meta.video_path, e.meta.time,
    e.sub_files.map (fun p => (p.1, p.2.map serSubtitle))⟩

def deserEntry (w : WireEntry) : Entry :=
  ⟨⟨w.video_path, w.time⟩,
    w.sub_files.map (fun p => (p.1, p.2.map deserSubtitle))⟩

def encodeDB (m : InternalDB) : List (Key × WireEntry) :=
  m.map (fun p => (p.1, serEntry p.2))

def decodeDB (l : List (Key × WireEntry)) : InternalDB :=
  l.map (fun p => (p.1, deserEntry p.2))

/-- Rust `SubDBVersioned` from sub.rs: the schema-tagged on-disk wrapper.
`Current` carries the rename tag "0.2"; `serde(other)` collapses every other
tag into `Unsupported`. -/
inductive SubDBVersioned where
  | Current (db : List (Key × WireEntry))
  | Unsupported
deriving DecidableEq

/-- Outcome of `SubDB::load`: a value, a propagated `Result` error (file open
or JSON decode), or a process-aborting panic (the unsupported-version branch). -/
inductive LoadOutcome where
  | ok (s : SubDB)
  | err (msg : String)
  | fatalPanic (msg : String)
deriving DecidableEq

/-- Method `SubDB::load` (sub.rs).  The backing file is modelled as
`none` when it does not exist, `some (.error e)` when opening/deserializing
fails, and `some (.ok v)` when it deserializes to the versioned wrapper `v`. -/
def SubDB.load (db_file : String) (file : Option (Except String SubDBVersioned)) : LoadOutcome :=
  match file with
  | none => .ok ⟨[], db_file⟩
  | some (.error e) => .err e
  | some (.ok (.Current db)) => .ok ⟨decodeDB db, db_file⟩
  | some (.ok .Unsupported) =>
    .fatalPanic "Wrong version in DB file detected (0.1 is the only supported)"

/-- Method `SubDB::save` (sub.rs): serialize the full map under the current schema
tag (writing the bytes is the external serde_json/File boundary). -/
def SubDB.save (s : SubDB) : SubDBVersioned :=
  .Current (encodeDB s.db)

/-- Method `SubDB::lookup` (sub.rs): pure read; classify a present entry via
`Entry::has_changed`, report `No` (not present) otherwise. -/
def SubDB.lookup (s : SubDB) (fs : Fs) (key : Key) : Except String EntryFound :=
  match dbGet s.db key with
  | some entry =>
    match entry.has_changed fs with
    | .ok .Yes => .ok .YesButChanged
    | .ok .No => .ok (.Yes entry)
    | .ok .Gone => .ok .YesButGone
    | .error e => .error e
  | none => .ok .No

/-! ## Scanning one file (`Entry::from_path`, `ffmpeg::extract_sub_files`) -/

/-- The external media tool and parser as seen by the scan: `ffprobe` stream
counting, existence of a previously extracted file, the per-stream `ffmpeg`
extraction command, and `parse_from_file` (srtlib). -/
structure MediaEnv where
  howManySubs : String → Except String Nat
  outfileExists : String → Bool
  runExtractCmd : String → Nat → String → Except String Unit
  parseFile : String → Except String (List Subtitle)

def outfileName (dir : String) (i : Nat) : String :=
  dir ++ "/" ++ toString i ++ ".srt"

/-- One stream index of the `flat_map` closure: the extracted file when it
pre-exists or the extraction command succeeds, nothing (the dropped `Err`)
otherwise. -/
def extractOne (env : MediaEnv) (path dir : String) (i : Nat) : Option String :=
  let outfile := outfileName dir i
  if env.outfileExists outfile then some outfile
  else
    match env.runExtractCmd path i outfile with
    | .ok _ => some outfile
    | .error _ => none

/-- The files the `flat_map` keeps out of the `n` stream indices. -/
def extractedFiles (env : MediaEnv) (path dir : String) (n : Nat) : List String :=
  (List.range n).filterMap (extractOne env path dir)

/-- Function `ffmpeg::extract_sub_files` (ffmpeg.rs): for each of the `how_many_subs`
stream indices, reuse an existing extracted file or run the extraction
command.  The closure returns `Result<PathBuf>` and is flattened with
`flat_map`, so a per-stream failure yields no item: it is silently dropped. -/
def extract_sub_files (env : MediaEnv) (path dir : String) : Except String (List String) :=
  match env.howManySubs path with
  | .error e => .error e
  | .ok n => .ok (extractedFiles env path dir n)

/-- Model of `Itertools::partition_result` over a list of `Result`s: the `Ok` values in
order, and the `Err` values in order. -/
def partitionResult : List (Except String (SubPath × List Subtitle)) →
    List (SubPath × List Subtitle) × List String
  | [] => ([], [])
  | .ok a :: rest =>
    let p := partitionResult rest
    (a :: p.1, p.2)
  | .error e :: rest =>
    let p := partitionResult rest
    (p.1, e :: p.2)

/-- The body of the parse closure in `Entry::from_path`: pair the enumerated
stream id with the parse result, or propagate the parse error. -/
def parseStep (env : MediaEnv) (p : Nat × String) : Except String (SubPath × List Subtitle) :=
  match env.parseFile p.2 with
  | .ok s => Except.ok (SubPath.InternalFFmpeg p.1, s)
  | .error e => Except.error e

/-- Method `Entry::from_path` (sub.rs): create a temp dir, extract the subtitle
files, parse each (numbering them by position in the extracted list), and
partition the parse results into the kept sources and the non-fatal errors.
`tempDir` models the fallible `tempfile::tempdir()`; `now` is `Utc::now()`
in nanoseconds. -/
def Entry.from_path (env : MediaEnv) (tempDir : Except String String) (now : Int)
    (key : Key) : Except String (Entry × List String) :=
  match tempDir with
  | .error e => .error e
  | .ok dir =>
    match extract_sub_files env key.video_path dir with
    | .error e => .error e
    | .ok subs =>
      let parsed := subs.enum.map (parseStep env)
      let split := partitionResult parsed
      .ok (⟨⟨key.video_path, now⟩, split.1⟩, split.2)

/-- Model of `Result::is_ok`. -/
def exceptIsOk {ε α : Type} : Except ε α → Bool
  | .ok _ => true
  | .error _ => false

/-- Method `SubDB::lookup_or_update` (sub.rs): the single mutating entry point.
Returns the updated store together with the optional entry; per-source scan
errors are logged (`warn!`) and dropped.  The `db.get(key).unwrap()` after the
insert is modelled by the inner `dbGet` match. -/
def SubDB.lookup_or_update (s : SubDB) (fs : Fs) (env : MediaEnv)
    (tempDir : Except String String) (now : Int) (key : Key) :
    Except String (SubDB × Option Entry) :=
  match s.lookup fs key with
  | .error e => .error e
  | .ok .YesButGone => .ok (⟨dbRemove s.db key, s.db_path⟩, none)
  | .ok (.Yes val) => .ok (s, some val)
  | .ok .YesButChanged | .ok .No =>
    match Entry.from_path env tempDir now key with
    | .error e => .error e
    | .ok newEntry =>
      let db2 := dbInsert s.db key newEntry.1
      match dbGet db2 key with
      | some v => .ok (⟨db2, s.db_path⟩, some v)
      | none => .error "unwrap on a None value"

/-! ## Identifying strings (sub.rs `as_identifying_string`, util.rs escape) -/

/-- main.rs constant. -/
def CLIP_FILENAME_TEXT_LEN : Nat := 64

/-- main.rs constant. -/
def CLIP_FILENAME_PATH_LEN : Nat := 128

/-- Rust `usize::MAX` (64-bit target), the no-truncation precision. -/
def usizeMax : Nat := 2 ^ 64 - 1

/-- Rust `SubtitleStringFormatOptions` from sub.rs. -/
inductive SubtitleStringFormatOptions where
  | Filename
  | NoneOpt
deriving DecidableEq

/-- The character substitution of `util::escape_for_unix_filename`:
slash, star, question mark, colon, pipe, apostrophe, double quote and NUL
become an underscore.  (The two quote characters are written via their code
points.) -/
def escapeChar (c : Char) : Char :=
  if c = '/' || c = '*' || c = '?' || c = ':' || c = '|' ||
      c = Char.ofNat 39 || c = Char.ofNat 34 || c = Char.ofNat 0 then
    '_'
  else c

/-- Rust `str::replace`: replace all non-overlapping occurrences of `pat`
left to right.  Fuel-based structural recursion (fuel starts at the input
length; each step consumes at least one character). -/
def replaceFuel (pat rep : List Char) : Nat → List Char → List Char
  | _, [] => []
  | 0, l => l
  | fuel + 1, c :: rest =>
    if pat ≠ [] ∧ pat.isPrefixOf (c :: rest) then
      rep ++ replaceFuel pat rep fuel (List.drop (pat.length - 1) rest)
    else
      c :: replaceFuel pat rep fuel rest

def replaceStr (s pat rep : String) : String :=
  String.mk (replaceFuel pat.toList rep.toList s.toList.length s.toList)

/-- Function `util::escape_for_unix_filename` (util.rs): substitute the unsafe
characters, turn a leading dash into an underscore, then replace the line
break sequences with a triple underscore. -/
def escape_for_unix_filename (input : String) : String :=
  let mapped := input.toList.map escapeChar
  let dashFixed :=
    match mapped with
    | [] => []
    | c :: rest => (if c = '-' then '_' else c) :: rest
  let s := String.mk dashFixed
  replaceStr (replaceStr (replaceStr s "\r\n" "___") "\n" "___") "\r" "___"

def pad2 (n : Nat) : String :=
  if n < 10 then "0" ++ toString n else toString n

def pad3 (n : Nat) : String :=
  if n < 10 then "00" ++ toString n
  else if n < 100 then "0" ++ toString n
  else toString n

/-- srtlib `Timestamp` `Display` (external library boundary): the SRT form
`HH:MM:SS,mmm`. -/
def tsDisplay (t : Timestamp) : String :=
  pad2 t.hours ++ ":" ++ pad2 t.minutes ++ ":" ++ pad2 t.seconds ++ "," ++ pad3 t.milliseconds

/-- Rust string formatting precision `{:.len$}`: keep at most `n` characters. -/
def truncateStr (s : String) (n : Nat) : String :=
  if s.length ≤ n then s else String.mk (s.toList.take n)

/-- Method `Subtitle::as_identifying_string` (sub.rs): escaped
`"text [start_time] (path)"`, text and path truncated only in `Filename`
mode. -/
def Subtitle.as_identifying_string (sub : Subtitle) (path : String)
    (format_opts : SubtitleStringFormatOptions) : String :=
  let line_len := if format_opts = .Filename then CLIP_FILENAME_TEXT_LEN else usizeMax
  let path_len := if format_opts = .Filename then CLIP_FILENAME_PATH_LEN else usizeMax
  escape_for_unix_filename
    (truncateStr sub.text line_len ++ " [" ++ tsDisplay sub.start_time ++ "] (" ++
      truncateStr path path_len ++ ")")

/-- Method `Entry::as_identifying_strings` (sub.rs): one display string per cue,
sources in order. -/
def Entry.as_identifying_strings (e : Entry) : List String :=
  ((e.sub_files.map Prod.snd).flatten).map
    (fun sub => sub.as_identifying_string e.meta.video_path .NoneOpt)

/-- Method `SubDB::as_identifying_strings` (sub.rs), sequentialized: every cue of
every entry paired with its key.  (The Rust version iterates the map with
rayon, so the inter-entry order is arbitrary; the list order here is the map
order.) -/
def SubDB.as_identifying_strings (s : SubDB) : List (Key × String) :=
  (s.db.map (fun p => (p.2.as_identifying_strings).map (fun id => (p.1, id)))).flatten

/-! ## ffmpeg clip (ffmpeg.rs) -/

/-- Rust `EncodingProfile` from ffmpeg.rs. -/
inductive EncodingProfile where
  | AV1
  | FLAC
deriving DecidableEq

/-- strum `Display` for `EncodingProfile`. -/
def EncodingProfile.display : EncodingProfile → String
  | .AV1 => "AV1"
  | .FLAC => "FLAC"

/-- Rust `EncodingSettings` from ffmpeg.rs. -/
structure EncodingSettings where
  ext : String
  params : List (String × String)
deriving DecidableEq

/-- The `ENCODING_PROFILES` table from ffmpeg.rs. -/
def encodingProfiles : EncodingProfile → EncodingSettings
  | .AV1 =>
    ⟨"mkv",
      [("-c:v", "libsvtav1"), ("-crf:v", "10"), ("-preset:v", "6"),
        ("-svtav1-params", "tune=0:film-grain=50:film-grain-denoise=0:enable-variance-boost=1"),
        ("-c:a", "libopus"), ("-b:a", "92k"), ("-ac", "2")]⟩
  | .FLAC => ⟨"flac", [("-c:v", "none"), ("-c:a", "flac"), ("-ac", "2")]⟩

/-- Function `settings_to_args` (ffmpeg.rs): flatten the parameter pairs, skipping
empty values. -/
def settings_to_args (settings : EncodingSettings) : List String :=
  (settings.params.map (fun p => if p.2 = "" then [p.1] else [p.1, p.2])).flatten

/-- srtlib `Ord` on `Timestamp`: lexicographic on
(hours, minutes, seconds, milliseconds) (derived field order). -/
def tsLt (a b : Timestamp) : Bool :=
  if a.hours = b.hours then
    if a.minutes = b.minutes then
      if a.seconds = b.seconds then decide (a.milliseconds < b.milliseconds)
      else decide (a.seconds < b.seconds)
    else decide (a.minutes < b.minutes)
  else decide (a.hours < b.hours)

def tsTotalMs (t : Timestamp) : Nat :=
  ((t.hours * 60 + t.minutes) * 60 + t.seconds) * 1000 + t.milliseconds

def tsOfMs (n : Nat) : Timestamp :=
  ⟨n / 3600000, n % 3600000 / 60000, n % 60000 / 1000, n % 1000⟩

/-- srtlib `Timestamp::sub` (external library boundary): millisecond
difference. -/
def tsSub (a b : Timestamp) : Timestamp :=
  tsOfMs (tsTotalMs a - tsTotalMs b)

/-- Function `timestamp_to_string` (ffmpeg.rs): the ffmpeg duration form
`HH:MM:SS.mmm`. -/
def timestamp_to_string (t : Timestamp) : String :=
  pad2 t.hours ++ ":" ++ pad2 t.minutes ++ ":" ++ pad2 t.seconds ++ "." ++ pad3 t.milliseconds

/-- One invocation of the external ffmpeg encoder as assembled by `_clip`
(ffmpeg.rs): input file, final output file (basename plus profile extension),
formatted start and duration, and the profile argument list. -/
structure EncoderCall where
  infile : String
  outfile : String
  start : String
  duration : String
  args : List String
deriving DecidableEq

instance {ε α : Type} [DecidableEq ε] [DecidableEq α] : DecidableEq (Except ε α) := fun x y =>
  match x, y with
  | .ok a, .ok b =>
    if h : a = b then .isTrue (h ▸ rfl) else .isFalse (fun hc => h (Except.ok.inj hc))
  | .error a, .error b =>
    if h : a = b then .isTrue (h ▸ rfl) else .isFalse (fun hc => h (Except.error.inj hc))
  | .ok _, .error _ => .isFalse (fun hc => Except.noConfusion hc)
  | .error _, .ok _ => .isFalse (fun hc => Except.noConfusion hc)

/-- Result of `ffmpeg::clip`: either rejected before any subprocess ran
(`err`), or the encoder ran with the recorded call and its result
(`ran`); on a failed run the partial output file is deleted (a filesystem
effect outside this model). -/
inductive ClipOutcome where
  | err (msg : String)
  | ran (call : EncoderCall) (result : Except String Unit)
deriving DecidableEq

/-- Function `ffmpeg::_clip`: build the final output name from the basename and the
profile extension and invoke the encoder (the subprocess is the oracle
`enc`). -/
def uclip (enc : EncoderCall → Except String Unit) (infile outfile_basename : String)
    (start duration : String) (profile : EncodingProfile) : ClipOutcome :=
  let settings := encodingProfiles profile
  let outfile := outfile_basename ++ "." ++ settings.ext
  let call : EncoderCall := ⟨infile, outfile, start, duration, settings_to_args settings⟩
  .ran call (enc call)

/-- Function `ffmpeg::clip` (ffmpeg.rs): `ensure!(end > start)` and then hand the
formatted start and duration to `_clip`. -/
def clip (enc : EncoderCall → Except String Unit) (infile outfile : String)
    (start stop : Timestamp) (profile : EncodingProfile) : ClipOutcome :=
  if tsLt start stop then
    uclip enc infile outfile (timestamp_to_string start)
      (timestamp_to_string (tsSub stop start)) profile
  else .err "ensure failed: end > start"

/-! ## The batch clip driver and the selection pipeline (main.rs) -/

/-- The CLI arguments the clip loop reads (cli.rs / main.rs). -/
structure BatchCfg where
  clip_dir : String
  subdir_per_profile : Bool
  profile : EncodingProfile
deriving DecidableEq

/-- Everything one clip item depends on: the filesystem, the (read-only)
store, the arguments and the external encoder. -/
structure ClipCtx where
  fs : Fs
  db : SubDB
  cfg : BatchCfg
  enc : EncoderCall → Except String Unit

/-- Outcome of one item of the parallel clip loop in main.rs: success, an
encoder run that failed, an ordinary per-item error (collected and logged by
the trailing `for_each`), or a `panic!` marking a logic error. -/
inductive ItemOutcome where
  | ok (call : EncoderCall)
  | clipFailed (call : EncoderCall) (msg : String)
  | itemError (msg : String)
  | logicPanic (msg : String)
deriving DecidableEq

/-- Whether the item reached the external encoder. -/
def ItemOutcome.invokedEncoder : ItemOutcome → Bool
  | .ok _ => true
  | .clipFailed _ _ => true
  | .itemError _ => false
  | .logicPanic _ => false

/-- Model of `Path::join` as used for the output path (string model of paths). -/
def pathJoin (a b : String) : String :=
  if b = "" then a else if a = "" then b else a ++ "/" ++ b

/-- The body of the per-selection closure in main.rs (lines 108-127):
re-validate via `lookup`, bail for that one item on `YesButGone` /
`YesButChanged`, panic on `No`, re-locate the cue by its identifying string,
build the output path and invoke `ffmpeg::clip`. -/
def processItem (ctx : ClipCtx) (key : Key) (line : String) : ItemOutcome :=
  match ctx.db.lookup ctx.fs key with
  | .error e => .itemError e
  | .ok (.Yes target_entry) =>
    match ((target_entry.sub_files.map Prod.snd).flatten).find?
        (fun sub => sub.as_identifying_string key.video_path .NoneOpt == line) with
    | none => .logicPanic "LOGIC ERROR: The entry under key does not have a corresponding sub line"
    | some target_sub =>
      let outfileBase := target_sub.as_identifying_string target_entry.meta.video_path .Filename
      let profile_string := ctx.cfg.profile.display
      let outfile :=
        pathJoin (pathJoin ctx.cfg.clip_dir
          (if ctx.cfg.subdir_per_profile then profile_string else "")) outfileBase
      match clip ctx.enc target_entry.meta.video_path outfile target_sub.start_time
          target_sub.end_time ctx.cfg.profile with
      | .err m => .itemError m
      | .ran call (.ok _) => .ok call
      | .ran call (.error m) => .clipFailed call m
  | .ok .YesButGone | .ok .YesButChanged =>
    .itemError "While clipping, file changed right under our noses"
  | .ok .No =>
    .logicPanic "LOGIC ERROR: took key directly from map, but map does not know about it anymore"

/-- The parallel clip loop: one independent closure per resolved selection;
results only flow into the logging `for_each`, so no item influences a
sibling. -/
def runBatch (ctx : ClipCtx) : List (Key × String) → List ItemOutcome
  | [] => []
  | item :: rest => processItem ctx item.1 item.2 :: runBatch ctx rest

/-- Lexicographic order on character lists: the order `par_sort` sorts Rust
strings by (byte-wise comparison of UTF-8 agrees with the code-point
lexicographic order). -/
def charListLe : List Char → List Char → Bool
  | [], _ => true
  | _ :: _, [] => false
  | a :: as, b :: bs => if a = b then charListLe as bs else decide (a.toNat < b.toNat)

def strLe (a b : String) : Bool := charListLe a.toList b.toList

/-- Insertion of one string into a sorted list. -/
def insertSorted (x : String) : List String → List String
  | [] => [x]
  | y :: ys => if strLe x y then x :: y :: ys else y :: insertSorted x ys

/-- Model of `par_sort` on the selector output, modelled as insertion sort (a sort by
the same total order). -/
def sortStrings : List String → List String
  | [] => []
  | x :: xs => insertSorted x (sortStrings xs)

/-- Helper for `dedup_with_count`: counting a running group. -/
def dedupCountGo (n : Nat) (cur : String) : List String → List (Nat × String)
  | [] => [(n, cur)]
  | y :: ys => if y = cur then dedupCountGo (n + 1) cur ys else (n, cur) :: dedupCountGo 1 y ys

/-- Model of `Itertools::dedup_with_count`: collapse consecutive runs of equal
elements into (multiplicity, element). -/
def dedupWithCount : List String → List (Nat × String)
  | [] => []
  | x :: xs => dedupCountGo 1 x xs

/-- The reverse lookup of main.rs lines 94-105: find each selected string in
the pre-computed search map, `none` modelling the `panic!` on a miss. -/
def resolveAll (search_map : List (Key × String)) : List String → Option (List (Key × String))
  | [] => some []
  | s :: rest =>
    match search_map.find? (fun q => q.2 == s) with
    | none => none
    | some pair => (resolveAll search_map rest).map (fun l => pair :: l)

/-- What the pipeline did after the selector returned: which duplicate
strings were reported (with multiplicity), and the per-item outcomes of the
clip loop. -/
structure PipelineOut where
  duplicate_reports : List (Nat × String)
  outcomes : List ItemOutcome
deriving DecidableEq

/-- main.rs from the selector result to the end (lines 82-127): sort the
selection, count duplicates, log every string with multiplicity above one
(`error!`, after which execution continues), resolve the deduplicated strings
against the search map (a miss is the `panic!` logic error, modelled as
`.error`), and run the parallel clip loop on the resolved pairs. -/
def runPipeline (ctx : ClipCtx) (search_results : List String) : Except String PipelineOut :=
  let sorted := sortStrings search_results
  let counted := dedupWithCount sorted
  let dups := counted.filter (fun p => decide (1 < p.1))
  let search_map := ctx.db.as_identifying_strings
  match resolveAll search_map (counted.map Prod.snd) with
  | none => .error "IMPOSSIBLE: not found in search entry hash map (LOGIC ERROR)"
  | some resolved => .ok ⟨dups, runBatch ctx resolved⟩

/-! ## Concrete fixtures used by witnesses and counterexamples -/

def movPath : String := "/videos/movie.mkv"

def cueHello : Subtitle := ⟨1, ⟨0, 0, 5, 0⟩, ⟨0, 0, 7, 0⟩, "Hello"⟩

def scanNanos : Int := 2 * 10 ^ 9

def entryHello : Entry := ⟨⟨movPath, scanNanos⟩, [(SubPath.InternalFFmpeg 0, [cueHello])]⟩

/-- A filesystem on which every path is a regular file changed at 1s after
the epoch (strictly before `scanNanos`). -/
def fsAllFresh : Fs := ⟨fun _ => true, fun _ => true, fun _ => .ok ⟨1, 0, 1, 0⟩⟩

/-- A filesystem on which no path exists. -/
def fsNone : Fs := ⟨fun _ => false, fun _ => false, fun _ => .error "not found"⟩

/-- A filesystem whose files changed exactly at `scanNanos`. -/
def fsEqual : Fs := ⟨fun _ => true, fun _ => true, fun _ => .ok ⟨2, 0, 2, 0⟩⟩

/-- A filesystem whose files have epoch (zero) timestamps. -/
def fsZeroTimes : Fs := ⟨fun _ => true, fun _ => true, fun _ => .ok ⟨0, 0, 0, 0⟩⟩

def dbHello : SubDB := ⟨[(⟨movPath⟩, entryHello)], "/db.json"⟩

def dbEmptyW : SubDB := ⟨[], "/db.json"⟩

def encAlwaysOk : EncoderCall → Except String Unit := fun _ => .ok ()

def ctxHello : ClipCtx := ⟨fsAllFresh, dbHello, ⟨"/clips", false, .AV1⟩, encAlwaysOk⟩

def lineHello : String := cueHello.as_identifying_string movPath .NoneOpt

/-- The scan environment for the C3 witness: zero subtitle streams. -/
def envNoSubs : MediaEnv :=
  ⟨fun _ => .ok 0, fun _ => false, fun _ _ _ => .ok (), fun _ => .ok []⟩

/-- The entry the C3 witness scan builds. -/
def entryScanW : Entry := ⟨⟨movPath, 5⟩, []⟩

def ctxGoneW : ClipCtx := ⟨fsNone, dbHello, ⟨"/clips", false, .AV1⟩, encAlwaysOk⟩

def ctxMissingW : ClipCtx := ⟨fsAllFresh, dbEmptyW, ⟨"/clips", false, .AV1⟩, encAlwaysOk⟩

/-- The scan environment for C4: two subtitle streams, the first failing
extraction, every extracted file parsing to one cue. -/
def envExtractFail : MediaEnv :=
  ⟨fun _ => .ok 2, fun _ => false,
    fun _ i _ => if i = 0 then .error "ffmpeg exited with failure" else .ok (),
    fun _ => .ok [cueHello]⟩

/-! ## Claim C2 and C10: the staleness oracle -/

/-- Claim C2: `Entry::has_changed` returns `Gone` when the video path does
not exist or is not a regular file; otherwise, when the checked nanosecond
arithmetic succeeds with strictly positive change and modification times and
the scan time fits an i64, it returns `Yes` (stale) exactly when the larger
of the two file timestamps is at least the recorded scan time, and `No`
(fresh) otherwise; equality yields `Yes`. -/
theorem has_changed_classification (fs : Fs) (e : Entry) :
    ((fs.pathExists e.meta.video_path = false ∨ fs.isFile e.meta.video_path = false) →
      e.has_changed fs = .ok .Gone) ∧
    (∀ st ct mt,
      fs.pathExists e.meta.video_path = true →
      fs.isFile e.meta.video_path = true →
      fs.statOf e.meta.video_path = .ok st →
      ctimeNanos st = some ct → 0 < ct →
      mtimeNanos st = some mt → 0 < mt →
      fitsI64 e.meta.time = true →
      e.has_changed fs = .ok (if e.meta.time ≤ max ct mt then .Yes else .No)) := by
  constructor
  · intro h
    unfold Entry.has_changed
    rcases h with h | h <;> simp [h]
  · intro st ct mt h1 h2 h3 h4 h5 h6 h7 h8
    unfold Entry.has_changed
    rw [h3]
    simp only [h1, h2, Bool.not_true, Bool.or_self, Bool.false_eq_true, if_false,
      timestampNanosOpt, h8, if_true]
    unfold relevant_timestamp
    rw [h4, h6]
    simp only [not_le.mpr h5, if_false, not_le.mpr h7]
    split <;> simp_all

/-- Claim C10: even when the checked nanosecond arithmetic does not overflow,
`Entry::has_changed` on an existing regular file fails with an error whenever
the computed ctime or mtime nanosecond value is not strictly positive
(the `ensure!` guards). -/
theorem has_changed_nonpositive_timestamp_error (fs : Fs) (e : Entry) (st : FsStat)
    (ct mt : Int)
    (h1 : fs.pathExists e.meta.video_path = true)
    (h2 : fs.isFile e.meta.video_path = true)
    (h3 : fs.statOf e.meta.video_path = .ok st)
    (h4 : ctimeNanos st = some ct)
    (h5 : mtimeNanos st = some mt)
    (h6 : ct ≤ 0 ∨ mt ≤ 0) :
    ∃ msg, e.has_changed fs = .error msg := by
  unfold Entry.has_changed
  rw [h3]
  simp only [h1, h2, Bool.not_true, Bool.or_self, Bool.false_eq_true, if_false]
  cases htn : timestampNanosOpt e.meta.time with
  | none => exact ⟨_, rfl⟩
  | some v =>
    unfold relevant_timestamp
    rw [h4, h5]
    rcases h6 with h | h
    · simp [h]
    · by_cases hc : ct ≤ 0
      · simp [hc]
      · simp [hc, h]

/-- Witness for C2: a deleted file classifies `Gone`; a file changed exactly
at the scan instant classifies `Yes` (stale); a file changed strictly before
classifies `No` (fresh). -/
theorem has_changed_classification_witness :
    Entry.has_changed fsNone entryHello = .ok .Gone ∧
    Entry.has_changed fsEqual entryHello = .ok .Yes ∧
    Entry.has_changed fsAllFresh entryHello = .ok .No := by
  refine ⟨(has_changed_classification fsNone entryHello).1 (Or.inl rfl), ?_, ?_⟩
  · have h := (has_changed_classification fsEqual entryHello).2 ⟨2, 0, 2, 0⟩
      (2 * 10 ^ 9) (2 * 10 ^ 9) rfl rfl rfl (by decide) (by decide) (by decide)
      (by decide) (by decide)
    rw [h]
    decide
  · have h := (has_changed_classification fsAllFresh entryHello).2 ⟨1, 0, 1, 0⟩
      (10 ^ 9) (10 ^ 9) rfl rfl rfl (by decide) (by decide) (by decide)
      (by decide) (by decide)
    rw [h]
    decide

/-- Witness for C10: a regular file whose timestamps sit at the Unix epoch
makes the staleness check fail with an error although nothing overflowed. -/
theorem has_changed_nonpositive_timestamp_error_witness :
    ∃ msg, Entry.has_changed fsZeroTimes entryHello = .error msg :=
  has_changed_nonpositive_timestamp_error fsZeroTimes entryHello ⟨0, 0, 0, 0⟩ 0 0
    rfl rfl rfl (by decide) (by decide) (Or.inl (by decide))

/-! ## Claim C3: the lookup-or-rescan state machine -/

theorem dbGet_dbRemove (m : InternalDB) (key : Key) : dbGet (dbRemove m key) key = none := by
  induction m with
  | nil => rfl
  | cons p rest ih =>
    by_cases h : p.1 = key
    · simpa [dbRemove, List.filter_cons, h] using ih
    · simp only [dbRemove, List.filter_cons] at ih ⊢
      simp [h, dbGet, ih]

theorem dbGet_dbInsert (m : InternalDB) (key : Key) (v : Entry) :
    dbGet (dbInsert m key v) key = some v := by
  simp [dbInsert, dbGet]

theorem from_path_meta (env : MediaEnv) (td : Except String String) (now : Int)
    (key : Key) (e : Entry) (errs : List String)
    (h : Entry.from_path env td now key = .ok (e, errs)) :
    e.meta.video_path = key.video_path ∧ e.meta.time = now := by
  unfold Entry.from_path at h
  cases td with
  | error _ => exact absurd h (by simp)
  | ok dir =>
    dsimp only at h
    cases hx : extract_sub_files env key.video_path dir with
    | error _ => rw [hx] at h; exact absurd h (by simp)
    | ok subs =>
      rw [hx] at h
      simp only [Except.ok.injEq, Prod.mk.injEq] at h
      rw [← h.1]
      exact ⟨rfl, rfl⟩

/-- Claim C3: `SubDB::lookup_or_update` behaves as the specified state
machine.  `YesButGone` removes the key and returns nothing, and a subsequent
lookup reports `No` (not present); `Yes entry` returns the entry with the
store untouched; `YesButChanged` or `No` performs a full scan, inserts the
new entry (stamped with the current time) replacing any prior binding, and
returns it. -/
theorem lookup_or_update_state_machine (s : SubDB) (fs : Fs) (env : MediaEnv)
    (td : Except String String) (now : Int) (key : Key) :
    (s.lookup fs key = .ok .YesButGone →
      s.lookup_or_update fs env td now key = .ok (⟨dbRemove s.db key, s.db_path⟩, none) ∧
      SubDB.lookup ⟨dbRemove s.db key, s.db_path⟩ fs key = .ok .No) ∧
    (∀ e, s.lookup fs key = .ok (.Yes e) →
      s.lookup_or_update fs env td now key = .ok (s, some e)) ∧
    (∀ ne errs,
      (s.lookup fs key = .ok .YesButChanged ∨ s.lookup fs key = .ok .No) →
      Entry.from_path env td now key = .ok (ne, errs) →
      s.lookup_or_update fs env td now key =
        .ok (⟨dbInsert s.db key ne, s.db_path⟩, some ne) ∧
      ne.meta.time = now ∧ ne.meta.video_path = key.video_path) := by
  refine ⟨?_, ?_, ?_⟩
  · intro h
    constructor
    · unfold SubDB.lookup_or_update
      rw [h]
    · unfold SubDB.lookup
      rw [dbGet_dbRemove]
  · intro e h
    unfold SubDB.lookup_or_update
    rw [h]
  · intro ne errs hl hf
    have hmeta := from_path_meta env td now key ne errs hf
    refine ⟨?_, hmeta.2, hmeta.1⟩
    unfold SubDB.lookup_or_update
    rcases hl with h | h <;>
      rw [h] <;> rw [hf] <;> simp only [dbGet_dbInsert]

/-- Witness for C3: on a concrete store, a gone file prunes the key and the
key then reads as not present; a fresh file returns the cached entry with the
store unchanged; a missing key triggers a scan whose result is inserted and
returned. -/
theorem lookup_or_update_state_machine_witness :
    SubDB.lookup_or_update dbHello fsNone envNoSubs (.ok "/tmp/t") 5 ⟨movPath⟩ =
      .ok (⟨dbRemove dbHello.db ⟨movPath⟩, "/db.json"⟩, none) ∧
    SubDB.lookup ⟨dbRemove dbHello.db ⟨movPath⟩, "/db.json"⟩ fsNone ⟨movPath⟩ = .ok .No ∧
    SubDB.lookup_or_update dbHello fsAllFresh envNoSubs (.ok "/tmp/t") 5 ⟨movPath⟩ =
      .ok (dbHello, some entryHello) ∧
    SubDB.lookup_or_update dbEmptyW fsAllFresh envNoSubs (.ok "/tmp/t") 5 ⟨movPath⟩ =
      .ok (⟨dbInsert dbEmptyW.db ⟨movPath⟩ entryScanW, "/db.json"⟩, some entryScanW) := by
  have hg := (lookup_or_update_state_machine dbHello fsNone envNoSubs (.ok "/tmp/t") 5
    ⟨movPath⟩).1 (by decide)
  have hy := (lookup_or_update_state_machine dbHello fsAllFresh envNoSubs (.ok "/tmp/t") 5
    ⟨movPath⟩).2.1 entryHello (by decide)
  have hn := ((lookup_or_update_state_machine dbEmptyW fsAllFresh envNoSubs (.ok "/tmp/t") 5
    ⟨movPath⟩).2.2 entryScanW [] (Or.inr (by decide)) (by decide)).1
  exact ⟨hg.1, hg.2, hy, hn⟩

/-! ## Claims C5 and C8: persistence -/

theorem deser_ser_subtitle (s : Subtitle) : deserSubtitle (serSubtitle s) = s := rfl

theorem map_deser_ser_subs (l : List Subtitle) :
    (l.map serSubtitle).map deserSubtitle = l := by
  induction l with
  | nil => rfl
  | cons a t ih => simp [ih, deser_ser_subtitle]

theorem subfiles_roundtrip (l : List (SubPath × List Subtitle)) :
    (l.map (fun p => (p.1, p.2.map serSubtitle))).map
      (fun p => (p.1, p.2.map deserSubtitle)) = l := by
  induction l with
  | nil => rfl
  | cons a t ih =>
    cases a
    simp only [List.map_cons, map_deser_ser_subs, ih]

theorem deserEntry_serEntry (e : Entry) : deserEntry (serEntry e) = e := by
  cases e with
  | mk meta sf =>
    cases meta
    simp only [serEntry, deserEntry]
    rw [subfiles_roundtrip]

theorem decodeDB_encodeDB (m : InternalDB) : decodeDB (encodeDB m) = m := by
  induction m with
  | nil => rfl
  | cons p rest ih =>
    cases p
    simp only [encodeDB, decodeDB, List.map_cons, List.map_map] at ih ⊢
    simp [ih, deserEntry_serEntry]

/-- Claim C5: serializing a `SubDB` with `save` and reading it back with
`load` restores the store exactly: same keys, same entries (metadata,
subtitle sources and cues in the same order). -/
theorem save_load_roundtrip (s : SubDB) :
    SubDB.load s.db_path (some (.ok s.save)) = .ok s := by
  have h : SubDB.load s.db_path (some (.ok s.save)) =
      .ok ⟨decodeDB (encodeDB s.db), s.db_path⟩ := rfl
  rw [h, decodeDB_encodeDB]

/-- Claim C8: a backing file carrying the recognized current tag loads to the
persisted entry map; any other tag hits the `serde(other)` variant and is a
process-aborting panic (no migration); a missing backing file loads as an
empty map. -/
theorem load_versioning (p : String) :
    (∀ l, SubDB.load p (some (.ok (.Current l))) = .ok ⟨decodeDB l, p⟩) ∧
    SubDB.load p (some (.ok .Unsupported)) =
      .fatalPanic "Wrong version in DB file detected (0.1 is the only supported)" ∧
    SubDB.load p none = .ok ⟨[], p⟩ :=
  ⟨fun _ => rfl, rfl, rfl⟩

/-! ## Claims C6, C7 and C9: the batch clip phase -/

/-- Claim C6: every batch item re-runs `lookup` before clipping.  A
`YesButGone` or `YesButChanged` classification is an ordinary error for that
one item; `No` is a `panic!` logic error; and the external encoder is only
ever invoked after the lookup returned `Yes` (fresh). -/
theorem clip_phase_revalidates (ctx : ClipCtx) (key : Key) (line : String) :
    ((ctx.db.lookup ctx.fs key = .ok .YesButGone ∨
        ctx.db.lookup ctx.fs key = .ok .YesButChanged) →
      processItem ctx key line =
        .itemError "While clipping, file changed right under our noses") ∧
    (ctx.db.lookup ctx.fs key = .ok .No →
      processItem ctx key line =
        .logicPanic "LOGIC ERROR: took key directly from map, but map does not know about it anymore") ∧
    ((processItem ctx key line).invokedEncoder = true →
      ∃ e, ctx.db.lookup ctx.fs key = .ok (.Yes e)) := by
  refine ⟨?_, ?_, ?_⟩
  · intro h
    unfold processItem
    rcases h with h | h <;> rw [h]
  · intro h
    unfold processItem
    rw [h]
  · intro h
    unfold processItem at h
    cases hl : ctx.db.lookup ctx.fs key with
    | error e => rw [hl] at h; exact absurd h (by simp [ItemOutcome.invokedEncoder])
    | ok found =>
      cases found with
      | Yes e => exact ⟨e, hl ▸ rfl⟩
      | YesButGone => rw [hl] at h; exact absurd h (by simp [ItemOutcome.invokedEncoder])
      | YesButChanged => rw [hl] at h; exact absurd h (by simp [ItemOutcome.invokedEncoder])
      | No => rw [hl] at h; exact absurd h (by simp [ItemOutcome.invokedEncoder])

/-- Witness for C6: a gone file yields a per-item error, a key absent from
the map yields the logic panic, and on the fresh store the encoder did get
invoked, so the fresh lookup is recoverable from the theorem. -/
theorem clip_phase_revalidates_witness :
    processItem ctxGoneW ⟨movPath⟩ lineHello =
      .itemError "While clipping, file changed right under our noses" ∧
    processItem ctxMissingW ⟨movPath⟩ lineHello =
      .logicPanic "LOGIC ERROR: took key directly from map, but map does not know about it anymore" ∧
    ∃ e, ctxHello.db.lookup ctxHello.fs ⟨movPath⟩ = .ok (.Yes e) :=
  ⟨(clip_phase_revalidates ctxGoneW ⟨movPath⟩ lineHello).1 (Or.inl (by decide)),
    (clip_phase_revalidates ctxMissingW ⟨movPath⟩ lineHello).2.1 (by decide),
    (clip_phase_revalidates ctxHello ⟨movPath⟩ lineHello).2.2 (by decide)⟩

/-- Claim C7: the clip loop maps one independent closure over the resolved
selections; the outcome at every position depends only on that positions own
item, so no failure of one item aborts or alters a sibling, and every item is
processed (the outcome list has one entry per selection). -/
theorem batch_partial_failure_isolation (ctx : ClipCtx) (items : List (Key × String)) :
    (runBatch ctx items).length = items.length ∧
    ∀ j, (runBatch ctx items).get? j =
      (items.get? j).map (fun it => processItem ctx it.1 it.2) := by
  induction items with
  | nil => exact ⟨rfl, fun j => by cases j <;> rfl⟩
  | cons a t ih =>
    refine ⟨by simpa [runBatch] using ih.1, fun j => ?_⟩
    cases j with
    | zero => rfl
    | succ n => simpa [runBatch] using ih.2 n

/-- Claim C9: `ffmpeg::clip` enforces `end > start` at the moment a cue
becomes a clip request: when the end does not exceed the start it returns an
error and the external encoder is never invoked. -/
theorem clip_requires_positive_duration (enc : EncoderCall → Except String Unit)
    (infile outfile : String) (start stop : Timestamp) (profile : EncodingProfile)
    (h : tsLt start stop = false) :
    clip enc infile outfile start stop profile = .err "ensure failed: end > start" ∧
    ∀ call r, clip enc infile outfile start stop profile ≠ .ran call r := by
  have hc : clip enc infile outfile start stop profile = .err "ensure failed: end > start" := by
    unfold clip
    rw [h]
    rfl
  exact ⟨hc, fun call r hr => by rw [hc] at hr; exact ClipOutcome.noConfusion hr⟩

/-- Witness for C9: a cue whose end equals its start is rejected before any
encoder invocation. -/
theorem clip_requires_positive_duration_witness :
    clip encAlwaysOk movPath "/clips/out" ⟨0, 0, 5, 0⟩ ⟨0, 0, 5, 0⟩ .AV1 =
      .err "ensure failed: end > start" :=
  (clip_requires_positive_duration encAlwaysOk movPath "/clips/out" ⟨0, 0, 5, 0⟩
    ⟨0, 0, 5, 0⟩ .AV1 (by decide)).1

/-! ## Claim C4: per-source failures during a rescan -/

theorem partitionResult_length (l : List (Except String (SubPath × List Subtitle))) :
    (partitionResult l).1.length + (partitionResult l).2.length = l.length := by
  induction l with
  | nil => rfl
  | cons r t ih => cases r <;> simp [partitionResult] <;> omega

theorem partitionResult_snd_length (l : List (Except String (SubPath × List Subtitle))) :
    (partitionResult l).2.length = l.countP (fun r => !exceptIsOk r) := by
  induction l with
  | nil => rfl
  | cons r t ih => cases r <;> simp [partitionResult, exceptIsOk, List.countP_cons, ih]

theorem countP_enumFrom (q : String → Bool) (k : Nat) (l : List String) :
    (List.enumFrom k l).countP (fun p => q p.2) = l.countP q := by
  induction l generalizing k with
  | nil => rfl
  | cons a t ih => simp [List.enumFrom, List.countP_cons, ih]

/-- Counterexample to C4 as stated: with two subtitle streams of which the
first fails extraction, `Entry::from_path` succeeds with a single kept
source (renumbered to stream id 0) and an empty error list — the source that
failed extraction is neither collected as a per-source error nor reported
anywhere, contradicting that every source failing extraction or parsing is
collected and logged. -/
theorem extraction_failure_silently_dropped :
    Entry.from_path envExtractFail (.ok "/tmp/t") 5 ⟨movPath⟩ =
      .ok (⟨⟨movPath, 5⟩, [(SubPath.InternalFFmpeg 0, [cueHello])]⟩, []) ∧
    envExtractFail.runExtractCmd movPath 0 (outfileName "/tmp/t" 0) =
      .error "ffmpeg exited with failure" :=
  ⟨by decide, rfl⟩

/-- Claim C4 (amended): during a rescan, no per-source failure prevents the
Entry from being created: whenever stream enumeration and temp-dir creation
succeed, `from_path` returns an Entry stamped with the scan time.  Sources
that fail parsing are collected as non-fatal per-source errors (the error
list counts exactly the extracted files whose parse fails, and the Entry
keeps the rest); sources that fail extraction are silently omitted, neither
entering the Entry nor the error list: kept sources plus collected parse
errors plus dropped extraction failures account for all streams. -/
theorem from_path_partial_failure_amended (env : MediaEnv) (td : Except String String)
    (now : Int) (key : Key) (dir : String) (n : Nat)
    (h1 : td = .ok dir)
    (h2 : env.howManySubs key.video_path = .ok n)
    (h3 : ∀ f, env.outfileExists f = false) :
    ∃ e errs, Entry.from_path env td now key = .ok (e, errs) ∧
      e.meta.video_path = key.video_path ∧ e.meta.time = now ∧
      errs.length = (extractedFiles env key.video_path dir n).countP
        (fun f => !exceptIsOk (env.parseFile f)) ∧
      e.sub_files.length + errs.length +
        (List.range n).countP
          (fun i => !exceptIsOk (env.runExtractCmd key.video_path i (outfileName dir i))) = n := by
  subst h1
  unfold Entry.from_path
  dsimp only
  simp only [extract_sub_files, h2]
  refine ⟨_, _, rfl, rfl, rfl, ?_, ?_⟩
  · rw [partitionResult_snd_length, List.countP_map]
    have hq : ((fun r => !exceptIsOk r) ∘ parseStep env) =
        (fun p : Nat × String => !exceptIsOk (env.parseFile p.2)) := by
      funext p
      simp only [Function.comp]
      cases h : env.parseFile p.2 <;> simp [parseStep, h, exceptIsOk]
    rw [hq]
    rw [show (extractedFiles env key.video_path dir n).enum =
      List.enumFrom 0 (extractedFiles env key.video_path dir n) from rfl]
    exact countP_enumFrom (fun f => !exceptIsOk (env.parseFile f)) 0
      (extractedFiles env key.video_path dir n)
  · have hsum : ((partitionResult ((extractedFiles env key.video_path dir n).enum.map
        (parseStep env))).1.length +
        (partitionResult ((extractedFiles env key.video_path dir n).enum.map
          (parseStep env))).2.length) =
        (extractedFiles env key.video_path dir n).length := by
      rw [partitionResult_length, List.length_map, List.enum_length]
    have hext : (extractedFiles env key.video_path dir n).length =
        (List.range n).countP
          (fun i => exceptIsOk (env.runExtractCmd key.video_path i (outfileName dir i))) := by
      rw [extractedFiles, List.length_filterMap_eq_countP]
      congr 1
      funext i
      simp only [extractOne, h3, if_false]
      cases h : env.runExtractCmd key.video_path i (outfileName dir i) <;>
        simp [h, exceptIsOk]
    have htot := List.length_eq_countP_add_countP
      (fun i => exceptIsOk (env.runExtractCmd key.video_path i (outfileName dir i)))
      (List.range n)
    rw [List.length_range] at htot
    have hneg : (fun i =>
        decide (¬exceptIsOk (env.runExtractCmd key.video_path i (outfileName dir i)) = true)) =
        (fun i => !exceptIsOk (env.runExtractCmd key.video_path i (outfileName dir i))) := by
      funext i
      cases h : exceptIsOk (env.runExtractCmd key.video_path i (outfileName dir i)) <;> simp [h]
    rw [hneg] at htot
    dsimp only
    omega

/-- Witness for the amended C4: on the concrete environment where stream 0
fails extraction and stream 1 extracts and parses, the entry is still
created, no parse error is collected, and the counts add up. -/
theorem from_path_partial_failure_amended_witness :
    ∃ e errs, Entry.from_path envExtractFail (.ok "/tmp/t") 5 ⟨movPath⟩ = .ok (e, errs) ∧
      e.meta.video_path = movPath ∧ e.meta.time = 5 ∧
      errs.length = (extractedFiles envExtractFail movPath "/tmp/t" 2).countP
        (fun f => !exceptIsOk (envExtractFail.parseFile f)) ∧
      e.sub_files.length + errs.length +
        (List.range 2).countP
          (fun i => !exceptIsOk (envExtractFail.runExtractCmd movPath i (outfileName "/tmp/t" i))) = 2 :=
  from_path_partial_failure_amended envExtractFail (.ok "/tmp/t") 5 ⟨movPath⟩ "/tmp/t" 2
    rfl rfl (fun _ => rfl)

/-! ## Claim C1: duplicate selections -/

/-- Claim C1 (code bug): running the post-selector pipeline of main.rs on a
selection that contains the same identifying string twice.  The duplicate is
detected and reported with multiplicity 2 — the log message even calls it a
hard error — but the batch is not aborted: the selection is deduplicated,
resolution proceeds, and the external encoder is invoked for the duplicated
string, contradicting the claimed abort before any clip operation. -/
theorem duplicate_selection_still_clips :
    (runPipeline ctxHello [lineHello, lineHello]).map
      (fun out => (out.duplicate_reports, out.outcomes.map ItemOutcome.invokedEncoder)) =
      .ok ([(2, lineHello)], [true]) := by
  rfl

end Magiclip
